import Mathlib

/-!
Shallow embedding of `src/My_Health_App4.py` (a personal health-metric
logger).  Numeric values are modelled as rationals; the persisted CSV log
is modelled as an optional stored table (`none` = the backing file is
absent) whose three optional activity columns may or may not be present.
Definitions mirror the Python source line by line; theorems settle the
claims of the specification against them.
-/

namespace HealthApp

/-- One row of the log, with the canonical column set of §3 of the spec
(source columns 日時, 身長(m), 体重(kg), 腹囲(cm), BMI, 性別,
ランニング(km), 自転車(km), 水泳(km)). -/
structure Row where
  timestamp : String
  height_m : ℚ
  weight_kg : ℚ
  waist_cm : ℚ
  bmi : ℚ
  gender : String
  running_km : ℚ
  cycling_km : ℚ
  swimming_km : ℚ
  deriving DecidableEq, Repr

/-- The persisted tabular file: which of the three optional activity
columns are present, and the stored rows.  When a column is absent the
corresponding `Row` field carries no meaning (any value). -/
structure StoredTable where
  hasRunning : Bool
  hasCycling : Bool
  hasSwimming : Bool
  rows : List Row
  deriving DecidableEq, Repr

/-- Base column names always written by the app (source lines 23-26). -/
def baseCols : List String :=
  ["日時", "身長(m)", "体重(kg)", "腹囲(cm)", "BMI", "性別"]

/-- The three optional activity column names (source line 18). -/
def activityCols : List String :=
  ["ランニング(km)", "自転車(km)", "水泳(km)"]

/-- The canonical column set of §3. -/
def canonicalCols : List String := baseCols ++ activityCols

/-- Column set a stored table exposes. -/
def StoredTable.cols (t : StoredTable) : List String :=
  baseCols ++ (if t.hasRunning then [activityCols[0]!] else [])
    ++ (if t.hasCycling then [activityCols[1]!] else [])
    ++ (if t.hasSwimming then [activityCols[2]!] else [])

/-- Backfill of one row under a table's column-presence flags: an absent
activity column is set to 0.0 (source lines 18-20, `df[col] = 0.0`). -/
def backfillRow (t : StoredTable) (r : Row) : Row :=
  { r with
    running_km := if t.hasRunning then r.running_km else 0
    cycling_km := if t.hasCycling then r.cycling_km else 0
    swimming_km := if t.hasSwimming then r.swimming_km else 0 }

/-- Source lines 15-26, `load_log`: if the backing file is absent, an
empty table with the canonical columns; otherwise the stored rows with
every absent activity column added with value 0.0. -/
def load_log (s : Option StoredTable) : StoredTable :=
  match s with
  | none => ⟨true, true, true, []⟩
  | some t => ⟨true, true, true, t.rows.map (backfillRow t)⟩

/-- Source lines 29-32, `save_log`: load the current log, append `entry`
as the last row, and rewrite the whole backing storage (which then has
all columns present). -/
def save_log (entry : Row) (s : Option StoredTable) : Option StoredTable :=
  some ⟨true, true, true, (load_log s).rows ++ [entry]⟩

/-- Source line 78: the BMI category message. -/
def bmi_msg (bmi : ℚ) : String :=
  if bmi < 37/2 then "やせ型"
  else if bmi < 25 then "標準体型"
  else if bmi < 30 then "肥満（1度）"
  else "高度肥満"

/-- Source line 79: the waist judgment message (gender-dependent
threshold). -/
def waist_msg (waist : ℚ) (gender : String) : String :=
  if (if gender = "男性" then waist < 85 else waist < 90) then "正常"
  else "メタボの可能性あり"

/-- Source lines 80-81: the weight-deviation message, with
`diff = weight - ideal_weight`. -/
def weight_msg (weight ideal_weight : ℚ) : String :=
  if |weight - ideal_weight| ≤ ideal_weight * (1/10) then "標準体型"
  else if weight < ideal_weight then "やせ型"
  else "太り気味"

/-- Rounding to two decimals, modelling `round(bmi, 2)` of source
line 94 (exact halfway cases, which differ between rounding modes, do
not arise in the claims). -/
def round2 (q : ℚ) : ℚ := (round (q * 100) : ℤ) / 100

/-- Result record of the evaluation block, holding the derived metrics
and the three judgment messages (source lines 74-81). -/
structure DiagnoseResult where
  bmi : ℚ
  ideal_weight : ℚ
  bmiJudgment : String
  waistJudgment : String
  weightJudgment : String
  deriving DecidableEq, Repr

/-- Source lines 74-81, the evaluation block run on submission.  Python
raises `ZeroDivisionError` exactly when the divisor `height ** 2` is
zero; otherwise the block computes the metrics and messages with no
validation of its inputs. -/
def diagnose (height weight waist : ℚ) (gender : String) :
    Except String DiagnoseResult :=
  if height ^ 2 = 0 then Except.error "ZeroDivisionError"
  else
    let bmi := weight / height ^ 2
    let ideal_weight := 22 * height ^ 2
    Except.ok ⟨bmi, ideal_weight, bmi_msg bmi, waist_msg waist gender,
      weight_msg weight ideal_weight⟩

/-- Source lines 91-96, `log_entry`: the record built from the raw
inputs, with `bmi` rounded to two decimals. -/
def mkEntry (now : String) (height weight waist : ℚ) (gender : String)
    (run bike swim : ℚ) : Row :=
  { timestamp := now, height_m := height, weight_kg := weight
    waist_cm := waist, bmi := round2 (weight / height ^ 2)
    gender := gender, running_km := run, cycling_km := bike
    swimming_km := swim }

/-- Source line 118: the report-time BMI category, re-derived from the
stored `BMI` field of the latest row (`latest["BMI"]`, line 113). -/
def pdf_bmi_msg (latest : Row) : String :=
  if latest.bmi < 37/2 then "やせ型"
  else if latest.bmi < 25 then "標準体型"
  else if latest.bmi < 30 then "肥満（1度）"
  else "高度肥満"

/-- Source line 119: the report-time waist judgment, re-derived from the
stored waist and gender fields of the latest row. -/
def pdf_waist_msg (latest : Row) : String :=
  if (if latest.gender = "男性" then latest.waist_cm < 85
      else latest.waist_cm < 90) then "正常"
  else "メタボの可能性あり"

/-- Source lines 115, 120-121: the report-time weight judgment,
re-derived from the stored weight and height fields of the latest row
(with `ideal_weight = 22 * height ** 2` recomputed). -/
def pdf_weight_msg (latest : Row) : String :=
  let ideal_weight := 22 * latest.height_m ^ 2
  if |latest.weight_kg - ideal_weight| ≤ ideal_weight * (1/10) then "標準体型"
  else if latest.weight_kg < ideal_weight then "やせ型"
  else "太り気味"

/-- Source line 36, `df.tail(10)`: the rows the trend chart consumes —
the last (at most) ten rows of the loaded log, in stored order. -/
def chartRows (rows : List Row) : List Row :=
  rows.drop (rows.length - 10)

end HealthApp

namespace HealthApp

/-- Backfilling under a table whose three activity columns are all
present changes nothing. -/
theorem backfillRow_all_true (l : List Row) (r : Row) :
    backfillRow ⟨true, true, true, l⟩ r = r := by
  simp [backfillRow]

/-- Loading after saving gives the previously loaded rows followed by
the appended entry. -/
theorem load_save_rows (e : Row) (s : Option StoredTable) :
    (load_log (save_log e s)).rows = (load_log s).rows ++ [e] := by
  show List.map (backfillRow ⟨true, true, true, (load_log s).rows ++ [e]⟩)
      ((load_log s).rows ++ [e]) = (load_log s).rows ++ [e]
  rw [List.map_congr_left (fun a _ => backfillRow_all_true _ a)]
  exact List.map_id _

/-- Claim C1: the BMI category is underweight for bmi < 18.5, normal for
18.5 ≤ bmi < 25, obese-class-1 for 25 ≤ bmi < 30 and severely-obese for
bmi ≥ 30; each boundary belongs to the upper class. -/
theorem C1_bmi_category (bmi : ℚ) :
    (bmi < 37/2 → bmi_msg bmi = "やせ型") ∧
    (37/2 ≤ bmi ∧ bmi < 25 → bmi_msg bmi = "標準体型") ∧
    (25 ≤ bmi ∧ bmi < 30 → bmi_msg bmi = "肥満（1度）") ∧
    (30 ≤ bmi → bmi_msg bmi = "高度肥満") ∧
    bmi_msg (37/2) = "標準体型" ∧ bmi_msg 25 = "肥満（1度）" ∧
    bmi_msg 30 = "高度肥満" := by
  unfold bmi_msg
  refine ⟨fun h => by simp [h], fun h => ?_, fun h => ?_, fun h => ?_,
    by norm_num, by norm_num, by norm_num⟩
  · rw [if_neg (by linarith), if_pos h.2]
  · rw [if_neg (by linarith), if_neg (by linarith), if_pos h.2]
  · rw [if_neg (by linarith), if_neg (by linarith), if_neg (by linarith)]

/-- Witness for C1 at concrete BMI values in each of the four classes. -/
theorem C1_bmi_category_witness :
    bmi_msg 17 = "やせ型" ∧ bmi_msg 22 = "標準体型" ∧
    bmi_msg 27 = "肥満（1度）" ∧ bmi_msg 31 = "高度肥満" :=
  ⟨(C1_bmi_category 17).1 (by norm_num),
   (C1_bmi_category 22).2.1 (by norm_num),
   (C1_bmi_category 27).2.2.1 (by norm_num),
   (C1_bmi_category 31).2.2.2.1 (by norm_num)⟩

/-- Claim C2: for every waist ≥ 0 and gender in the enum, the waist
judgment compares against the gender-dependent threshold (male 85 cm,
female 90 cm): normal below it, metabolic-risk at or above it; in
particular male 85.0 and female 90.0 are metabolic-risk and male 84.999
is normal. -/
theorem C2_waist_threshold (waist : ℚ) (gender : String)
    (hw : 0 ≤ waist) (hg : gender = "男性" ∨ gender = "女性") :
    (gender = "男性" →
      (waist < 85 → waist_msg waist gender = "正常") ∧
      (85 ≤ waist → waist_msg waist gender = "メタボの可能性あり")) ∧
    (gender = "女性" →
      (waist < 90 → waist_msg waist gender = "正常") ∧
      (90 ≤ waist → waist_msg waist gender = "メタボの可能性あり")) ∧
    waist_msg 85 "男性" = "メタボの可能性あり" ∧
    waist_msg (84999/1000) "男性" = "正常" ∧
    waist_msg 90 "女性" = "メタボの可能性あり" := by
  refine ⟨fun hm => ?_, fun hf => ?_, by norm_num [waist_msg],
    by norm_num [waist_msg], by norm_num [waist_msg]⟩
  · subst hm
    exact ⟨fun h => by simp [waist_msg, h],
      fun h => by simp [waist_msg, not_lt.mpr h]⟩
  · subst hf
    exact ⟨fun h => by simp [waist_msg, h],
      fun h => by simp [waist_msg, not_lt.mpr h]⟩

/-- Witness for C2 at the male and female boundary inputs. -/
theorem C2_waist_threshold_witness :
    waist_msg 85 "男性" = "メタボの可能性あり" ∧
    waist_msg (84999/1000) "男性" = "正常" ∧
    waist_msg 90 "女性" = "メタボの可能性あり" ∧
    waist_msg 89 "女性" = "正常" :=
  ⟨((C2_waist_threshold 85 "男性" (by norm_num) (Or.inl rfl)).1 rfl).2
      (by norm_num),
   ((C2_waist_threshold (84999/1000) "男性" (by norm_num) (Or.inl rfl)).1
      rfl).1 (by norm_num),
   ((C2_waist_threshold 90 "女性" (by norm_num) (Or.inr rfl)).2.1 rfl).2
      (by norm_num),
   ((C2_waist_threshold 89 "女性" (by norm_num) (Or.inr rfl)).2.1 rfl).1
      (by norm_num)⟩

/-- Claim C3: with ideal_weight = 22·height² and diff = weight − ideal,
the weight-deviation category is normal when |diff| ≤ 0.1·ideal,
otherwise underweight when diff < 0, otherwise overweight. -/
theorem C3_weight_deviation (height weight : ℚ)
    (hh : 0 < height) (hw : 0 < weight) :
    (|weight - 22 * height ^ 2| ≤ (22 * height ^ 2) * (1/10) →
      weight_msg weight (22 * height ^ 2) = "標準体型") ∧
    (¬ |weight - 22 * height ^ 2| ≤ (22 * height ^ 2) * (1/10) →
      weight - 22 * height ^ 2 < 0 →
      weight_msg weight (22 * height ^ 2) = "やせ型") ∧
    (¬ |weight - 22 * height ^ 2| ≤ (22 * height ^ 2) * (1/10) →
      0 ≤ weight - 22 * height ^ 2 →
      weight_msg weight (22 * height ^ 2) = "太り気味") := by
  refine ⟨fun h => by rw [weight_msg, if_pos h], fun h hlt => ?_,
    fun h hge => ?_⟩
  · rw [weight_msg, if_neg h, if_pos (by linarith)]
  · rw [weight_msg, if_neg h, if_neg (by intro hc; linarith)]

/-- Witness for C3 at height 1.73 m: weight 66 kg is normal, 50 kg is
underweight, 90 kg is overweight. -/
theorem C3_weight_deviation_witness :
    weight_msg 66 (22 * (173/100) ^ 2) = "標準体型" ∧
    weight_msg 50 (22 * (173/100) ^ 2) = "やせ型" ∧
    weight_msg 90 (22 * (173/100) ^ 2) = "太り気味" :=
  ⟨(C3_weight_deviation (173/100) 66 (by norm_num) (by norm_num)).1
      (by norm_num [abs_le]),
   (C3_weight_deviation (173/100) 50 (by norm_num) (by norm_num)).2.1
      (by norm_num [lt_abs]) (by norm_num),
   (C3_weight_deviation (173/100) 90 (by norm_num) (by norm_num)).2.2
      (by norm_num [lt_abs]) (by norm_num)⟩

/-- Claim C10: any gender label other than the male one — including
values outside the {male, female} enum — is classified with the female
waist threshold of 90 cm, at the entry-time judgment and at the
report-time re-judgment alike. -/
theorem C10_nonmale_female_threshold (r : Row) (hg : r.gender ≠ "男性") :
    (r.waist_cm < 90 →
      waist_msg r.waist_cm r.gender = "正常" ∧ pdf_waist_msg r = "正常") ∧
    (90 ≤ r.waist_cm →
      waist_msg r.waist_cm r.gender = "メタボの可能性あり" ∧
      pdf_waist_msg r = "メタボの可能性あり") := by
  constructor
  · intro h
    constructor
    · simp [waist_msg, hg, h]
    · simp [pdf_waist_msg, hg, h]
  · intro h
    constructor
    · simp [waist_msg, hg, not_lt.mpr h]
    · simp [pdf_waist_msg, hg, not_lt.mpr h]

/-- Witness for C10 at a gender string outside the enum. -/
theorem C10_nonmale_female_threshold_witness :
    waist_msg 90 "その他" = "メタボの可能性あり" ∧
    pdf_waist_msg ⟨"2024-01-01 09:00", 173/100, 66, 90, 2205/100, "その他",
      0, 0, 0⟩ = "メタボの可能性あり" :=
  ⟨((C10_nonmale_female_threshold ⟨"2024-01-01 09:00", 173/100, 66, 90,
      2205/100, "その他", 0, 0, 0⟩ (by decide)).2 (by norm_num)).1,
   ((C10_nonmale_female_threshold ⟨"2024-01-01 09:00", 173/100, 66, 90,
      2205/100, "その他", 0, 0, 0⟩ (by decide)).2 (by norm_num)).2⟩

/-- Claim C4: appending a record and loading yields the previously
stored rows unchanged and in order, followed by the new record as the
last row, whose bmi field is the raw bmi rounded to two decimals. -/
theorem C4_append_load_roundtrip (s : Option StoredTable) (now : String)
    (height weight waist : ℚ) (gender : String) (run bike swim : ℚ) :
    (load_log (save_log (mkEntry now height weight waist gender run bike swim)
        s)).rows
      = (load_log s).rows
        ++ [mkEntry now height weight waist gender run bike swim] ∧
    (mkEntry now height weight waist gender run bike swim).bmi
      = round2 (weight / height ^ 2) :=
  ⟨load_save_rows _ s, rfl⟩

/-- Claim C5: loading a parseable stored table yields a table exposing
the full canonical column set, the same number of rows, and rowwise the
base fields unchanged while each activity column absent from the source
is backfilled with 0.0 and each present one is kept. -/
theorem C5_backfill_canonical (t : StoredTable) :
    (load_log (some t)).cols = canonicalCols ∧
    (load_log (some t)).rows.length = t.rows.length ∧
    List.Forall₂ (fun r' r =>
        r'.timestamp = r.timestamp ∧ r'.height_m = r.height_m ∧
        r'.weight_kg = r.weight_kg ∧ r'.waist_cm = r.waist_cm ∧
        r'.bmi = r.bmi ∧ r'.gender = r.gender ∧
        (t.hasRunning = false → r'.running_km = 0) ∧
        (t.hasRunning = true → r'.running_km = r.running_km) ∧
        (t.hasCycling = false → r'.cycling_km = 0) ∧
        (t.hasCycling = true → r'.cycling_km = r.cycling_km) ∧
        (t.hasSwimming = false → r'.swimming_km = 0) ∧
        (t.hasSwimming = true → r'.swimming_km = r.swimming_km))
      (load_log (some t)).rows t.rows := by
  refine ⟨rfl, by simp [load_log], ?_⟩
  have hmap : (load_log (some t)).rows = t.rows.map (backfillRow t) := rfl
  rw [hmap, List.forall₂_map_left_iff]
  rw [List.forall₂_same]
  intro r hr
  refine ⟨rfl, rfl, rfl, rfl, rfl, rfl, ?_, ?_, ?_, ?_, ?_, ?_⟩ <;>
    intro h <;> simp [backfillRow, h]

/-- Witness for C5 on a two-row table whose running column is absent:
loading backfills running with 0.0 in every pre-existing row. -/
theorem C5_backfill_canonical_witness :
    (load_log (some ⟨false, true, true,
      [⟨"2024-01-01 09:00", 173/100, 66, 83, 2205/100, "男性", 7, 1, 2⟩,
       ⟨"2024-01-02 09:00", 173/100, 67, 84, 2239/100, "男性", 3, 4, 5⟩]⟩)).cols
      = canonicalCols ∧
    (load_log (some ⟨false, true, true,
      [⟨"2024-01-01 09:00", 173/100, 66, 83, 2205/100, "男性", 7, 1, 2⟩,
       ⟨"2024-01-02 09:00", 173/100, 67, 84, 2239/100, "男性", 3, 4, 5⟩]⟩)).rows.map
        Row.running_km = [0, 0] := by
  have h := C5_backfill_canonical ⟨false, true, true,
    [⟨"2024-01-01 09:00", 173/100, 66, 83, 2205/100, "男性", 7, 1, 2⟩,
     ⟨"2024-01-02 09:00", 173/100, 67, 84, 2239/100, "男性", 3, 4, 5⟩]⟩
  exact ⟨h.1, rfl⟩

/-- Claim C6: when the backing file is absent, loading returns a table
with no rows that exposes the canonical column set. -/
theorem C6_load_absent :
    (load_log none).rows = [] ∧ (load_log none).cols = canonicalCols :=
  ⟨rfl, rfl⟩

/-- Counterexample to claim C7: at the non-positive height −2 the
evaluation block signals no error at all — it silently returns a
result. -/
theorem C7_counterexample :
    ((-2 : ℚ) ≤ 0) ∧ (diagnose (-2) 66 83 "男性").isOk = true := by
  refine ⟨by norm_num, ?_⟩
  have h2 : ((-2 : ℚ)) ^ 2 ≠ 0 := by norm_num
  rw [diagnose, if_neg h2]
  rfl

/-- Claim C7 as amended: the evaluation block performs no explicit
input validation; it raises (a division-by-zero error, not an
invalid-argument error) exactly when height = 0, and for every height ≠
0 — in particular every input satisfying the stated constraints — it
returns a result without raising; a negative height silently yields a
finite result. -/
theorem C7_no_validation (height weight waist : ℚ) (gender : String) :
    (height = 0 →
      diagnose height weight waist gender
        = Except.error "ZeroDivisionError") ∧
    (height ≠ 0 → (diagnose height weight waist gender).isOk = true) := by
  constructor
  · intro h
    subst h
    simp [diagnose]
  · intro h
    have h2 : height ^ 2 ≠ 0 := pow_ne_zero 2 h
    rw [diagnose, if_neg h2]
    rfl

/-- Witness for C7: zero height raises, the deployed height 1.73 does
not. -/
theorem C7_no_validation_witness :
    diagnose 0 66 83 "男性" = Except.error "ZeroDivisionError" ∧
    (diagnose (173/100) 66 83 "男性").isOk = true :=
  ⟨(C7_no_validation 0 66 83 "男性").1 rfl,
   (C7_no_validation (173/100) 66 83 "男性").2 (by norm_num)⟩

/-- Rounding the raw bmi 74.81 / 1.73² ≈ 24.9992 to two decimals gives
exactly 25. -/
theorem round2_boundary : round2 ((7481/100 : ℚ) / (173/100) ^ 2) = 25 := by
  have hq : ((7481/100 : ℚ) / (173/100) ^ 2) * 100 = 74810000/29929 := by
    norm_num
  have hfl : ⌊(74810000/29929 : ℚ) + 1/2⌋ = 2500 := by
    rw [Int.floor_eq_iff]
    constructor <;> norm_num
  rw [round2, hq, round_eq, hfl]
  norm_num

/-- Counterexample to claim C8: for the record built from height 1.73
and weight 74.81, the report-time BMI category (derived from the stored
rounded bmi, 25.00) is obese-class-1, while the Evaluator's BMI category
for the raw measurements (raw bmi ≈ 24.9992) is normal. -/
theorem C8_counterexample :
    pdf_bmi_msg (mkEntry "2024-01-01 09:00" (173/100) (7481/100) 83 "男性"
        0 0 0) = "肥満（1度）" ∧
    bmi_msg ((7481/100 : ℚ) / (173/100) ^ 2) = "標準体型" := by
  constructor
  · show bmi_msg (round2 ((7481/100 : ℚ) / (173/100) ^ 2)) = _
    rw [round2_boundary, bmi_msg, if_neg (by norm_num),
      if_neg (by norm_num), if_pos (by norm_num)]
  · rw [bmi_msg, if_neg (by norm_num), if_pos (by norm_num)]

/-- Claim C8 as amended: the report re-derives all three categories at
report time from the persisted most-recent row, trusting no stored
judgment label; the waist and weight-deviation categories are re-derived
from the raw measurement fields and equal the entry-time Evaluator
judgments, while the BMI category is re-derived from the persisted
rounded bmi field (equal to round2 of the raw bmi), which can cross a
class boundary under rounding. -/
theorem C8_report_rederivation (s : Option StoredTable) (now : String)
    (height weight waist : ℚ) (gender : String) (run bike swim : ℚ) :
    (load_log (save_log (mkEntry now height weight waist gender run bike swim)
        s)).rows.getLast?
      = some (mkEntry now height weight waist gender run bike swim) ∧
    pdf_waist_msg (mkEntry now height weight waist gender run bike swim)
      = waist_msg waist gender ∧
    pdf_weight_msg (mkEntry now height weight waist gender run bike swim)
      = weight_msg weight (22 * height ^ 2) ∧
    pdf_bmi_msg (mkEntry now height weight waist gender run bike swim)
      = bmi_msg (round2 (weight / height ^ 2)) := by
  refine ⟨?_, rfl, rfl, rfl⟩
  rw [load_save_rows]
  exact List.getLast?_concat _

/-- Claim C9: the trend chart consumes exactly the most recent (at
most) ten rows of the loaded log as a suffix, and when the log's
timestamps are in ascending order — the spec's chronological-append
invariant — the consumed rows are sorted by timestamp ascending. -/
theorem C9_chart_last_ten (s : Option StoredTable) :
    (chartRows (load_log s).rows).length = min 10 (load_log s).rows.length ∧
    (load_log s).rows.take ((load_log s).rows.length - 10)
        ++ chartRows (load_log s).rows = (load_log s).rows ∧
    (List.Sorted (· ≤ ·) ((load_log s).rows.map Row.timestamp) →
      List.Sorted (· ≤ ·) ((chartRows (load_log s).rows).map Row.timestamp)) := by
  refine ⟨?_, ?_, fun hs => ?_⟩
  · rw [chartRows, List.length_drop]
    omega
  · exact List.take_append_drop _ _
  · refine List.Pairwise.sublist ?_ hs
    rw [chartRows, List.map_drop]
    exact List.drop_sublist _ _

/-- Witness for C9 on a loaded single-row log with a sorted timestamp
column. -/
theorem C9_chart_last_ten_witness :
    List.Sorted (· ≤ ·) ((chartRows (load_log (some ⟨true, true, true,
      [⟨"2024-01-01 09:00", 173/100, 66, 83, 2205/100, "男性",
        0, 0, 0⟩]⟩)).rows).map Row.timestamp) :=
  (C9_chart_last_ten (some ⟨true, true, true,
    [⟨"2024-01-01 09:00", 173/100, 66, 83, 2205/100, "男性",
      0, 0, 0⟩]⟩)).2.2 (by simp [load_log, backfillRow])

end HealthApp
